import Mathlib

/-!
Shallow embedding of the cache-aware metric core of the cheminformatics
benchmark repository: the sampling metrics (`cuchembm/metrics/sampling.py`)
and the embedding metrics (`cuchembm/metrics/embedding.py`).

Numeric conventions: Python/numpy floats are modelled by `NpF`, a rational
number extended with the IEEE special values that the code can actually
produce (`inf`, `-inf`, `nan`); numpy never raises on division by zero, it
emits a warning and returns one of these special values, and `NpF`
reproduces that. Integer counters are modelled by `Nat`/`Int`.

External collaborators (the inference client, the RDKit validity check, the
training-set membership test, the estimator fit/predict pair and the
mean-squared-error routine) are parameters of the embedded functions, as
they are injected dependencies in the source as well.
-/

/-- Model of a numpy/Python float as produced by this code base: a rational
value or one of the special values `inf`, `-inf`, `nan`. -/
inductive NpF where
  | finite (q : ℚ)
  | posInf
  | negInf
  | nan
deriving DecidableEq, Repr

/-- The `<` comparison on numpy floats: any comparison with `nan` is false,
`-inf` is below every finite value and `inf` above. -/
def NpF.lt : NpF → NpF → Bool
  | .finite a, .finite b => a < b
  | .finite _, .posInf => true
  | .negInf, .finite _ => true
  | .negInf, .posInf => true
  | _, _ => false

/-- Is this float the special value `nan`? -/
def NpF.isNan : NpF → Bool
  | .nan => true
  | _ => false

/-- The finite value carried by a float, when there is one. -/
def NpF.finitePart : NpF → Option ℚ
  | .finite q => some q
  | _ => none

/-- Division of a rational numerator by a rational denominator with numpy
semantics: a zero denominator gives `inf`, `-inf` or `nan` according to the
sign of the numerator (numpy warns but does not raise). -/
def npDivQ (a b : ℚ) : NpF :=
  if b = 0 then (if 0 < a then .posInf else if a < 0 then .negInf else .nan)
  else .finite (a / b)

/-- Float division with numpy semantics on the special values. -/
def NpF.div : NpF → NpF → NpF
  | .nan, _ => .nan
  | _, .nan => .nan
  | .finite a, .finite b => npDivQ a b
  | .finite _, .posInf => .finite 0
  | .finite _, .negInf => .finite 0
  | .posInf, .finite b => if b < 0 then .negInf else .posInf
  | .negInf, .finite b => if b < 0 then .posInf else .negInf
  | _, _ => .nan

/-- `np.nanmean`: the mean of the non-`nan` entries; `nan` when every entry
is `nan` (or the list is empty); an infinity dominates the mean. -/
def nanmean (l : List NpF) : NpF :=
  let rest := l.filter (fun x => !x.isNan)
  if rest.isEmpty then .nan
  else if rest.contains .posInf then
    (if rest.contains .negInf then .nan else .posInf)
  else if rest.contains .negInf then .negInf
  else .finite ((rest.filterMap NpF.finitePart).sum / rest.length)

/-! ## Sampling cache (`fetch_sampling_data` / `insert_sampling_data`)

The sampling cache is keyed by the structured request fingerprint that the
source passes field by field to the cache collaborator. -/

/-- The request fingerprint of a sampling call: inferrer class name, input
SMILES and the numeric/flag parameters, in the source's argument order. -/
structure SampleKey where
  model_name : String
  smiles : String
  num_samples : ℕ
  scaled_radius : ℚ
  force_unique : Bool
  sanitize : Bool
deriving DecidableEq, Repr

/-- The result frame returned by `inferrer.find_similars_smiles`: the
`SMILES` column (first entry is the input molecule itself), one embedding
and one embedding shape descriptor per row. -/
structure SimilarsResult where
  SMILES : List String
  embeddings : List (List ℚ)
  embeddings_dim : List (List ℕ)
deriving DecidableEq, Repr

/-- The sampling-cache store, newest entry first. -/
abbrev SamplingDb := List (SampleKey × SimilarsResult)

/-- `sample_cache.fetch_sampling_data`: point lookup of the generated SMILES
list stored under a fingerprint; `none` on a miss. -/
def fetch_sampling_data (db : SamplingDb) (key : SampleKey) : Option (List String) :=
  (List.lookup key db).map SimilarsResult.SMILES

/-- `sample_cache.insert_sampling_data`: store a fresh result under its
fingerprint. -/
def insert_sampling_data (db : SamplingDb) (key : SampleKey)
    (generated_smiles : List String) (embeddings : List (List ℚ))
    (embeddings_dim : List (List ℕ)) : SamplingDb :=
  (key, ⟨generated_smiles, embeddings, embeddings_dim⟩) :: db

/-- Python truthiness of the fetched value in
`BaseSampleMetric._find_similars_smiles`: `if not generated_smiles:` is
taken when the fetch returned nothing or an empty list. -/
def sampling_fetch_falsy : Option (List String) → Bool
  | none => true
  | some l => l.isEmpty

/-- Outcome of one `_find_similars_smiles` lookup: the generated list, the
cache state afterwards, and whether the inference client was invoked. -/
structure SimilarsLookup where
  generated_smiles : List String
  db : SamplingDb
  client_called : Bool
deriving Repr

/-- `BaseSampleMetric._find_similars_smiles`: fetch from the cache; when the
fetched value is falsy, call the inference client and insert the fresh
result; otherwise return the stored list unchanged. -/
def find_similars_smiles_lookup (inferrer_name : String)
    (client : String → ℕ → ℚ → Bool → Bool → SimilarsResult)
    (db : SamplingDb) (smiles : String) (num_samples : ℕ) (scaled_radius : ℚ)
    (force_unique : Bool) (sanitize : Bool) : SimilarsLookup :=
  let key : SampleKey := ⟨inferrer_name, smiles, num_samples, scaled_radius, force_unique, sanitize⟩
  let fetched := fetch_sampling_data db key
  if sampling_fetch_falsy fetched then
    let result := client smiles num_samples scaled_radius force_unique sanitize
    ⟨result.SMILES,
     insert_sampling_data db key result.SMILES result.embeddings result.embeddings_dim,
     true⟩
  else
    ⟨fetched.getD [], db, false⟩

/-! ## Sampling metrics (`Validity`, `Unique`, `Novelty`) -/

/-- `Validity.sample`: count, over the generated list with its first
(identity-marker) element dropped, the strings accepted by the molecule
parser (`Chem.MolFromSmiles`, an external collaborator passed as a
predicate). -/
def Validity_sample (mol_parses : String → Bool) (inferrer_name : String)
    (client : String → ℕ → ℚ → Bool → Bool → SimilarsResult)
    (db : SamplingDb) (smiles : String) (num_samples : ℕ) (radius : ℚ) : ℕ :=
  let generated_smiles :=
    (find_similars_smiles_lookup inferrer_name client db smiles num_samples radius
      false false).generated_smiles
  (generated_smiles.tail.filter mol_parses).length

/-- `Unique.sample`: the number of distinct strings among the generated list
with its first (identity-marker) element dropped (`len(set(gs[1:]))`). -/
def Unique_sample (inferrer_name : String)
    (client : String → ℕ → ℚ → Bool → Bool → SimilarsResult)
    (db : SamplingDb) (smiles : String) (num_samples : ℕ) (radius : ℚ) : ℕ :=
  let generated_smiles :=
    (find_similars_smiles_lookup inferrer_name client db smiles num_samples radius
      false false).generated_smiles
  generated_smiles.tail.dedup.length

/-- `Novelty.smiles_in_train`: membership test delegated to the training-set
collaborator. -/
def Novelty_smiles_in_train (is_known_smiles : String → Bool) (smiles : String) : Bool :=
  is_known_smiles smiles

/-- `Novelty.sample`: `sum([self.smiles_in_train(x) for x in generated_smiles])`
— the membership flags are summed over the WHOLE generated list, the first
(identity-marker) element included. -/
def Novelty_sample (is_known_smiles : String → Bool) (inferrer_name : String)
    (client : String → ℕ → ℚ → Bool → Bool → SimilarsResult)
    (db : SamplingDb) (smiles : String) (num_samples : ℕ) (radius : ℚ) : ℕ :=
  let generated_smiles :=
    (find_similars_smiles_lookup inferrer_name client db smiles num_samples radius
      false false).generated_smiles
  (generated_smiles.map (fun x =>
    if Novelty_smiles_in_train is_known_smiles x then 1 else 0)).sum

/-- Modelled from the spec: the Novelty reduction as the spec states it,
"Reduce the candidate list (excluding the identity-marker first element) to
a per-molecule count … count of candidates that are members of a designated
training set". Stated only to be compared against `Novelty_sample`. -/
def Novelty_sample_spec (is_known_smiles : String → Bool) (inferrer_name : String)
    (client : String → ℕ → ℚ → Bool → Bool → SimilarsResult)
    (db : SamplingDb) (smiles : String) (num_samples : ℕ) (radius : ℚ) : ℕ :=
  let generated_smiles :=
    (find_similars_smiles_lookup inferrer_name client db smiles num_samples radius
      false false).generated_smiles
  (generated_smiles.tail.map (fun x =>
    if Novelty_smiles_in_train is_known_smiles x then 1 else 0)).sum

/-! ## Aggregation (`_calculate_metric`, `sample_many`, `calculate`) -/

/-- `BaseSampleMetric._calculate_metric`:
`np.nansum(metric_array) / float(len(metric_array) * num_samples)`. The
array holds integer counts, so `nansum` is the plain sum; the division is
numpy float division and does not raise on a zero denominator. -/
def BaseSampleMetric_calculate_metric (metric_array : List ℤ) (num_samples : ℕ) : NpF :=
  let total_samples : ℤ := metric_array.length * num_samples
  npDivQ (metric_array.sum : ℚ) (total_samples : ℚ)

/-- `BaseSampleMetric.sample_many`: one `sample` count per dataset molecule,
in dataset order. -/
def sample_many (sample : String → ℕ → ℚ → ℤ) (smiles_dataset : List String)
    (num_samples : ℕ) (radius : ℚ) : List ℤ :=
  smiles_dataset.map (fun smiles => sample smiles num_samples radius)

/-- The `pd.Series` returned by `BaseSampleMetric.calculate`. -/
structure SampleMetricSeries where
  name : String
  value : NpF
  radius : ℚ
  num_samples : ℕ
deriving Repr

/-- `BaseSampleMetric.calculate`: run `sample_many` over the dataset and
reduce with `_calculate_metric`. -/
def BaseSampleMetric_calculate (name : String) (sample : String → ℕ → ℚ → ℤ)
    (smiles_dataset : List String) (radius : ℚ) (num_samples : ℕ) : SampleMetricSeries :=
  let metric_array := sample_many sample smiles_dataset num_samples radius
  { name := name
    value := BaseSampleMetric_calculate_metric metric_array num_samples
    radius := radius
    num_samples := num_samples }

/-! ## Embedding cache (`fetch_embedding_data` / `insert_embedding_data`,
`BaseEmbeddingMetric._find_embedding`)

An embedding-cache entry is the pair (embedding values, shape descriptor)
exactly as the source destructures `embedding, embedding_dim =
embedding_results`. -/

/-- The embedding-cache store, newest entry first, keyed by the SMILES
string. -/
abbrev EmbeddingDb := List (String × (List ℚ × List ℕ))

/-- `sample_cache.fetch_embedding_data`: point lookup; `none` on a miss. -/
def fetch_embedding_data (db : EmbeddingDb) (smiles : String) :
    Option (List ℚ × List ℕ) :=
  List.lookup smiles db

/-- `sample_cache.insert_embedding_data`. -/
def insert_embedding_data (db : EmbeddingDb) (smiles : String)
    (embedding : List ℚ) (dim : List ℕ) : EmbeddingDb :=
  (smiles, (embedding, dim)) :: db

/-- Outcome of one `_find_embedding` lookup: the embedding and its shape
descriptor, the cache state afterwards, and whether the inference client
was invoked. -/
structure EmbeddingLookup where
  embedding : List ℚ
  embedding_dim : List ℕ
  db : EmbeddingDb
  client_called : Bool
deriving Repr

/-- `BaseEmbeddingMetric._find_embedding`: fetch from the cache; the guard
`if not embedding_results or len(embedding_results[1]) == 1:` invokes the
inference client both on a genuine miss and when the stored entry's shape
descriptor has length exactly 1, inserting the fresh result in either
case; otherwise the stored pair is returned unchanged. -/
def find_embedding (client : String → Option ℕ → List ℚ × List ℕ)
    (db : EmbeddingDb) (smiles : String) (max_seq_len : Option ℕ) : EmbeddingLookup :=
  match fetch_embedding_data db smiles with
  | some (e, d) =>
      if d.length = 1 then
        let r := client smiles max_seq_len
        ⟨r.1, r.2, insert_embedding_data db smiles r.1 r.2, true⟩
      else
        ⟨e, d, db, false⟩
  | none =>
      let r := client smiles max_seq_len
      ⟨r.1, r.2, insert_embedding_data db smiles r.1 r.2, true⟩

/-! ## Nearest-neighbor correlation (`NearestNeighborCorrelation.calculate`)

The pairwise-distance matrices and the Spearman correlation are external
numeric-library collaborators; the embedded fragment keeps the part the
source owns: the result record and the effective `top_k` reported, where
`embeddings.shape[0]` is the number of dataset molecules (one embedding is
encoded per molecule). -/

/-- The dict returned by `NearestNeighborCorrelation.calculate`. -/
structure NNCResult where
  name : String
  value : NpF
  top_k : ℤ
deriving Repr

/-- `NearestNeighborCorrelation.calculate`: `metric_value` stands for
`np.nanmean` of the Spearman correlations (computed by collaborators);
`top_k = embeddings.shape[0] - 1 if not top_k else top_k` — the Python
falsy test replaces both `None` and `0` by the number of molecules minus
one. -/
def NearestNeighborCorrelation_calculate (metric_value : NpF)
    (smiles_dataset : List String) (top_k : Option ℕ) : NNCResult :=
  { name := "nearest neighbor correlation"
    value := metric_value
    top_k :=
      match top_k with
      | none => (smiles_dataset.length : ℤ) - 1
      | some 0 => (smiles_dataset.length : ℤ) - 1
      | some k => (k : ℤ) }

/-! ## Modelability grid search (`Modelability.gpu_gridsearch_cv`)

The estimator is the source's injected model object: `fit` re-fits its
state on a training split and may raise (modelled by `Except`), `predict`
is read-only, `mse` is the library mean-squared-error. The k-fold split of
`(xdata, ydata)` produced by `KFold(..., random_state=0)` is deterministic
and is passed in as the list of its (train, test) slices. The source
estimator object keeps the state of its most recent `fit`; the embedding
threads that state through explicitly, so after the fold loop of one
parameter combination the current model is the one fitted on that
combination's last fold. -/

/-- One cross-validation fold: the train and held-out slices of the data. -/
structure CVFold (X Y : Type) where
  xtrain : X
  ytrain : Y
  xtest : X
  ytest : Y
deriving DecidableEq, Repr

/-- The fold loop of `gpu_gridsearch_cv` for one parameter combination,
with the loop state (accumulated `kfold_mse` list, current estimator
state) made explicit: fit on each fold's training slice, score the
held-out slice, append the fold's MSE. A raised fit error exits the loop
and propagates (the source has no exception handling here). -/
def run_param_folds_from {Param Model X Y : Type}
    (fit : Param → X → Y → Except String Model)
    (predict : Model → X → Y) (mse : Y → Y → NpF) (p : Param) :
    List (CVFold X Y) → List NpF × Option Model →
    Except String (List NpF × Option Model)
  | [], acc => .ok acc
  | fold :: rest, acc =>
      match fit p fold.xtrain fold.ytrain with
      | .error e => .error e
      | .ok m =>
          run_param_folds_from fit predict mse p rest
            (acc.1 ++ [mse (predict m fold.xtest) fold.ytest], some m)

/-- The fold loop for one parameter combination, started from the empty
MSE list; the returned model is the estimator state left by the last
fold's fit. -/
def run_param_folds {Param Model X Y : Type}
    (fit : Param → X → Y → Except String Model)
    (predict : Model → X → Y) (mse : Y → Y → NpF)
    (p : Param) (folds : List (CVFold X Y)) :
    Except String (List NpF × Option Model) :=
  run_param_folds_from fit predict mse p folds ([], none)

/-- The parameter-grid loop of `gpu_gridsearch_cv`, with the running
`(best_score, best_param, best_pred)` triple explicit: for each
combination run the fold loop, average the fold MSEs with `np.nanmean`
and keep the strictly best; when predictions are retained, a new best
stores `estimator.predict(xdata)` — the estimator in the state left by
that combination's last fold fit. A raised fit error propagates. -/
def gpu_gridsearch_cv_from {Param Model X Y : Type}
    (fit : Param → X → Y → Except String Model)
    (predict : Model → X → Y) (mse : Y → Y → NpF)
    (folds : List (CVFold X Y)) (return_predictions : Bool) (xdata : X) :
    List Param → NpF × Option Param × Option Y →
    Except String (NpF × Option Param × Option Y)
  | [], best => .ok best
  | p :: rest, best =>
      match run_param_folds fit predict mse p folds with
      | .error e => .error e
      | .ok r =>
          let avg_mse := nanmean r.1
          if NpF.lt avg_mse best.1 then
            gpu_gridsearch_cv_from fit predict mse folds return_predictions xdata rest
              (avg_mse, some p,
               if return_predictions then r.2.map (fun m => predict m xdata)
               else best.2.2)
          else
            gpu_gridsearch_cv_from fit predict mse folds return_predictions xdata rest best

/-- `Modelability.gpu_gridsearch_cv`: the grid loop started from
`best_score, best_param, best_pred = np.inf, None, None`. -/
def gpu_gridsearch_cv {Param Model X Y : Type}
    (fit : Param → X → Y → Except String Model)
    (predict : Model → X → Y) (mse : Y → Y → NpF)
    (folds : List (CVFold X Y)) (return_predictions : Bool) (xdata : X)
    (params : List Param) :
    Except String (NpF × Option Param × Option Y) :=
  gpu_gridsearch_cv_from fit predict mse folds return_predictions xdata params
    (NpF.posInf, none, none)

/-- Modelled from the spec: "Optionally retain out-of-fold predictions for
the best combination only (computed by refitting on the full data with the
winning parameters)" — fit the estimator on the full data with the winning
combination and predict on the full data. Stated only to be compared
against the predictions `gpu_gridsearch_cv` actually returns. -/
def spec_refit_predictions {Param Model X Y : Type}
    (fit : Param → X → Y → Except String Model)
    (predict : Model → X → Y) (xdata : X) (ydata : Y) (winning : Param) :
    Except String Y := do
  let m ← fit winning xdata ydata
  pure (predict m xdata)

/-! ## Modelability ratio (`Modelability._calculate_metric`)

Embedded with the default configuration of the constructor
(`normalize_inputs=False`, `return_predictions=False`), so the z-scoring
branches are inactive; the fragment keeps the two grid searches and the
ratio. -/

/-- The results dict built by `Modelability._calculate_metric` (value,
errors, winning parameters, retained predictions). -/
structure ModelabilityResults (Param Y : Type) where
  value : NpF
  fingerprint_error : NpF
  embedding_error : NpF
  fingerprint_param : Option Param
  embedding_param : Option Param
  fingerprint_pred : Option Y
  embedding_pred : Option Y
deriving DecidableEq, Repr

/-- `Modelability._calculate_metric`: grid search once on the embeddings and
once on the fingerprints against the same property target, then
`ratio = fingerprint_error / embedding_error` (numpy float division). -/
def Modelability_calculate_metric {Param Model X Y : Type}
    (fit : Param → X → Y → Except String Model)
    (predict : Model → X → Y) (mse : Y → Y → NpF)
    (emb_folds fp_folds : List (CVFold X Y))
    (embeddings fingerprints : X) (params : List Param) :
    Except String (ModelabilityResults Param Y) :=
  match gpu_gridsearch_cv fit predict mse emb_folds false embeddings params with
  | .error e => .error e
  | .ok r1 =>
      match gpu_gridsearch_cv fit predict mse fp_folds false fingerprints params with
      | .error e => .error e
      | .ok r2 =>
          .ok { value := NpF.div r2.1 r1.1
                fingerprint_error := r2.1
                embedding_error := r1.1
                fingerprint_param := r2.2.1
                embedding_param := r1.2.1
                fingerprint_pred := r2.2.2
                embedding_pred := r1.2.2 }

/-! ## Concrete collaborators used to evaluate the embedded code -/

/-- Stub inference client returning the scenario list
`["CCO", "CCC", "invalid_string", "CCO"]` for every request. -/
def scenario_client : String → ℕ → ℚ → Bool → Bool → SimilarsResult :=
  fun _ _ _ _ _ => ⟨["CCO", "CCC", "invalid_string", "CCO"], [], []⟩

/-- Stub training-set membership: exactly "CCO" and "CCC" are known. -/
def train_stub (s : String) : Bool := s == "CCO" || s == "CCC"

/-- Sampling cache holding, for molecule "CCO" at `n = 2`, radius 1, the
generated list `["CCO", "CCC", "OCC"]`. -/
def novelty_db_stub : SamplingDb :=
  [(⟨"MegaMolBART", "CCO", 2, 1, false, false⟩, ⟨["CCO", "CCC", "OCC"], [], []⟩)]

/-- Stub inference client that generates nothing (never reached on a cache
hit). -/
def empty_client : String → ℕ → ℚ → Bool → Bool → SimilarsResult :=
  fun _ _ _ _ _ => ⟨[], [], []⟩

/-- Embedding cache holding for "CCO" an entry whose shape descriptor has
length exactly 1. -/
def embdb_dim_one : EmbeddingDb := [("CCO", ([5, 7], [2]))]

/-- Stub embedding client returning a 2 x 3 embedding. -/
def emb_client_stub : String → Option ℕ → List ℚ × List ℕ :=
  fun _ _ => ([1, 2, 3, 4, 5, 6], [2, 3])

/-! ## Claims about the sampling metrics -/

/-- Claim C1 (code bug): the spec states that the identity-marker first
element of the generated list is never counted by Novelty, as it is not by
Validity and Uniqueness, but `Novelty.sample` sums the training-set
membership flags over the whole list: on the cached list
`["CCO", "CCC", "OCC"]` with training set {"CCO", "CCC"} the code returns
2 (the identity marker "CCO" is counted) while the spec's reduction over
the tail gives 1. -/
theorem novelty_counts_identity_marker :
    Novelty_sample train_stub "MegaMolBART" empty_client novelty_db_stub "CCO" 2 1 = 2
    ∧ Novelty_sample_spec train_stub "MegaMolBART" empty_client novelty_db_stub "CCO" 2 1 = 1 := by
  constructor <;> rfl

/-- Claim C2 (code bug): with `num_samples = 0` on a non-empty dataset the
spec demands a fail-fast error, but `calculate` reaches the division with
denominator `len(metric_array) * 0 = 0` and numpy division returns `nan`
(zero numerator) or `inf` (positive numerator) with only a warning — a
value is produced, nothing is raised. -/
theorem calculate_zero_num_samples_divides :
    (BaseSampleMetric_calculate "validity" (fun _ _ _ => 0) ["CCO"] (1/2) 0).value = NpF.nan
    ∧ (BaseSampleMetric_calculate "validity" (fun _ _ _ => 2) ["CCO"] (1/2) 0).value = NpF.posInf := by
  constructor <;> rfl

/-- Claim C6 (counterexample): for the scenario list
`["CCO", "CCC", "invalid_string", "CCO"]` at `n = 3`, `Unique.sample` does
not return 2. -/
theorem unique_sample_scenario_ne_two :
    Unique_sample "MegaMolBART" scenario_client [] "CCO" 3 (1/10) ≠ 2 := by
  decide

/-- Claim C6 (amended): for the scenario list
`["CCO", "CCC", "invalid_string", "CCO"]` at `n = 3`, `Unique.sample`
returns 3 — the three candidates after the identity marker ("CCC",
"invalid_string", "CCO") are pairwise distinct. -/
theorem unique_sample_scenario_eq_three :
    Unique_sample "MegaMolBART" scenario_client [] "CCO" 3 (1/10) = 3 := by
  rfl

/-! ## Claims about the cache-wrapping of inference calls -/

/-- Claim C3 (counterexample): a fetch that returns a stored embedding
result can still trigger a client call — with a cached entry for "CCO"
whose shape descriptor has length 1, the fetch succeeds and the client is
called anyway. -/
theorem embedding_fetch_hit_still_calls_client :
    (fetch_embedding_data embdb_dim_one "CCO").isSome = true
    ∧ (find_embedding emb_client_stub embdb_dim_one "CCO" none).client_called = true := by
  constructor <;> rfl

/-- Claim C10 (confirmed): a cached embedding entry whose shape descriptor
has length exactly 1 does not satisfy the fetch — `_find_embedding` treats
it as a miss, invokes the inference client and inserts the recomputed
result into the cache. -/
theorem find_embedding_dim_one_is_miss
    (client : String → Option ℕ → List ℚ × List ℕ) (db : EmbeddingDb)
    (smiles : String) (max_seq_len : Option ℕ) (e : List ℚ) (d : List ℕ)
    (hfetch : fetch_embedding_data db smiles = some (e, d))
    (hdim : d.length = 1) :
    find_embedding client db smiles max_seq_len =
      ⟨(client smiles max_seq_len).1, (client smiles max_seq_len).2,
       insert_embedding_data db smiles (client smiles max_seq_len).1
         (client smiles max_seq_len).2,
       true⟩ := by
  simp [find_embedding, hfetch, hdim]

/-- Concrete run of `find_embedding_dim_one_is_miss` on a cache whose "CCO"
entry carries the shape descriptor `[2]` of length 1. -/
theorem find_embedding_dim_one_is_miss_witness :
    fetch_embedding_data embdb_dim_one "CCO" = some ([5, 7], [2])
    ∧ ([2] : List ℕ).length = 1
    ∧ find_embedding emb_client_stub embdb_dim_one "CCO" none =
        ⟨[1, 2, 3, 4, 5, 6], [2, 3],
         insert_embedding_data embdb_dim_one "CCO" [1, 2, 3, 4, 5, 6] [2, 3],
         true⟩ :=
  ⟨rfl, rfl,
   find_embedding_dim_one_is_miss emb_client_stub embdb_dim_one "CCO" none
     [5, 7] [2] rfl rfl⟩

/-- Claim C3 (amended): the sampling lookup invokes the client exactly when
the cache fetch is falsy (no row, or an empty stored list); the embedding
lookup invokes the client exactly when the fetch misses or the stored
entry's shape descriptor has length 1; in both wrappers a client call is
immediately followed by inserting the fresh result, and when the client is
not called the cache is left unchanged — so each lookup calls the client
at most once, but an embedding fetch that returns a stored result can
still trigger a client call. -/
theorem cache_fetch_then_insert_characterization
    (inferrer_name : String) (client : String → ℕ → ℚ → Bool → Bool → SimilarsResult)
    (db : SamplingDb) (smiles : String) (num_samples : ℕ) (scaled_radius : ℚ)
    (force_unique : Bool) (sanitize : Bool)
    (eclient : String → Option ℕ → List ℚ × List ℕ) (edb : EmbeddingDb)
    (esmiles : String) (max_seq_len : Option ℕ) :
    ((find_similars_smiles_lookup inferrer_name client db smiles num_samples
        scaled_radius force_unique sanitize).client_called
      = sampling_fetch_falsy (fetch_sampling_data db
          ⟨inferrer_name, smiles, num_samples, scaled_radius, force_unique, sanitize⟩))
    ∧ ((find_similars_smiles_lookup inferrer_name client db smiles num_samples
          scaled_radius force_unique sanitize).db
        = (if (find_similars_smiles_lookup inferrer_name client db smiles num_samples
                scaled_radius force_unique sanitize).client_called then
             insert_sampling_data db
               ⟨inferrer_name, smiles, num_samples, scaled_radius, force_unique, sanitize⟩
               (client smiles num_samples scaled_radius force_unique sanitize).SMILES
               (client smiles num_samples scaled_radius force_unique sanitize).embeddings
               (client smiles num_samples scaled_radius force_unique sanitize).embeddings_dim
           else db))
    ∧ ((find_embedding eclient edb esmiles max_seq_len).client_called
        = (match fetch_embedding_data edb esmiles with
           | none => true
           | some ed => decide (ed.2.length = 1)))
    ∧ ((find_embedding eclient edb esmiles max_seq_len).db
        = (if (find_embedding eclient edb esmiles max_seq_len).client_called then
             insert_embedding_data edb esmiles (eclient esmiles max_seq_len).1
               (eclient esmiles max_seq_len).2
           else edb)) := by
  refine ⟨?_, ?_, ?_, ?_⟩
  · by_cases h : sampling_fetch_falsy (fetch_sampling_data db
        ⟨inferrer_name, smiles, num_samples, scaled_radius, force_unique, sanitize⟩) = true
    · simp [find_similars_smiles_lookup, h]
    · simp only [Bool.not_eq_true] at h
      simp [find_similars_smiles_lookup, h]
  · by_cases h : sampling_fetch_falsy (fetch_sampling_data db
        ⟨inferrer_name, smiles, num_samples, scaled_radius, force_unique, sanitize⟩) = true
    · simp [find_similars_smiles_lookup, h]
    · simp only [Bool.not_eq_true] at h
      simp [find_similars_smiles_lookup, h]
  · rcases hf : fetch_embedding_data edb esmiles with _ | ⟨e, d⟩
    · simp [find_embedding, hf]
    · by_cases hd : d.length = 1
      · simp [find_embedding, hf, hd]
      · simp [find_embedding, hf, hd]
  · rcases hf : fetch_embedding_data edb esmiles with _ | ⟨e, d⟩
    · simp [find_embedding, hf]
    · by_cases hd : d.length = 1
      · simp [find_embedding, hf, hd]
      · simp [find_embedding, hf, hd]

/-! ## Claims about the embedding metrics -/

/-- Claim C9 (confirmed): when `NearestNeighborCorrelation.calculate` is
invoked without a `top_k` value, the returned record reports `top_k` equal
to the number of dataset molecules minus 1. -/
theorem nnc_default_top_k (metric_value : NpF) (smiles_dataset : List String) :
    (NearestNeighborCorrelation_calculate metric_value smiles_dataset none).top_k
      = (smiles_dataset.length : ℤ) - 1 := rfl

/-- Claim C7 (confirmed): for a non-empty dataset and `num_samples > 0`,
the value reported by `calculate` is the sum of the per-molecule counts
divided by (dataset size times `num_samples`), as a finite number. -/
theorem calculate_value_is_population_rate
    (name : String) (sample : String → ℕ → ℚ → ℤ) (smiles_dataset : List String)
    (radius : ℚ) (num_samples : ℕ)
    (hds : smiles_dataset ≠ []) (hn : 0 < num_samples) :
    (BaseSampleMetric_calculate name sample smiles_dataset radius num_samples).value
      = NpF.finite (((sample_many sample smiles_dataset num_samples radius).sum : ℚ)
          / ((smiles_dataset.length : ℚ) * (num_samples : ℚ))) := by
  have hlen : (sample_many sample smiles_dataset num_samples radius).length
      = smiles_dataset.length := List.length_map _ _
  have hpos : (0 : ℚ) < (smiles_dataset.length : ℚ) * (num_samples : ℚ) := by
    have h1 : 0 < smiles_dataset.length := List.length_pos.mpr hds
    positivity
  show npDivQ _ _ = _
  rw [npDivQ]
  rw [if_neg]
  · congr 1
    congr 1
    push_cast
    rw [hlen]
  · push_cast
    rw [hlen]
    exact ne_of_gt hpos

/-- Per-molecule count stub used to evaluate
`calculate_value_is_population_rate`: the length of the SMILES string. -/
def length_sample_fn : String → ℕ → ℚ → ℤ := fun s _ _ => (s.length : ℤ)

/-- Concrete run of `calculate_value_is_population_rate` on a two-molecule
dataset with `num_samples = 2`. -/
theorem calculate_value_is_population_rate_witness :
    (["CC", "CCO"] : List String) ≠ []
    ∧ 0 < 2
    ∧ (BaseSampleMetric_calculate "unique" length_sample_fn ["CC", "CCO"] 1 2).value
        = NpF.finite (((sample_many length_sample_fn ["CC", "CCO"] 2 1).sum : ℚ)
            / (((["CC", "CCO"] : List String).length : ℚ) * ((2 : ℕ) : ℚ))) :=
  ⟨by decide, by decide,
   calculate_value_is_population_rate "unique" length_sample_fn ["CC", "CCO"] 1 2
     (by decide) (by decide)⟩

/-! ## Claims about the Modelability grid search -/

/-- A single cross-validation fold on small rational-list data. -/
def cfold1 : CVFold (List ℚ) (List ℚ) := ⟨[1, 2], [0], [9], [0]⟩

/-- The fold list used in the concrete grid-search runs. -/
def cfolds : List (CVFold (List ℚ) (List ℚ)) := [cfold1]

/-- An estimator whose fit raises for parameter combination 0 and succeeds
(memorizing the training features) for every other combination. -/
def cfit_raises : ℕ → List ℚ → List ℚ → Except String (List ℚ) :=
  fun p xt _ => if p = 0 then .error "fit failed" else .ok xt

/-- Prediction stub: the sum of the memorized training features, for any
query. -/
def cpredict : List ℚ → List ℚ → List ℚ := fun m _ => [m.sum]

/-- MSE stub: every score is 0. -/
def cmse : List ℚ → List ℚ → NpF := fun _ _ => .finite 0

/-- Total-fit estimator: memorize the training features. -/
def cgfit : ℕ → List ℚ → List ℚ → List ℚ := fun _ xt _ => xt

/-- Claim C4 (counterexample): with two combinations [0, 1] where fitting
combination 0 raises, `gpu_gridsearch_cv` aborts with the raised error; it
does not skip combination 0 and continue to combination 1, whose search
result would have been a normal score. -/
theorem gridsearch_error_aborts_counterexample :
    gpu_gridsearch_cv cfit_raises cpredict cmse cfolds false [1, 2, 3] [0, 1]
        = .error "fit failed"
    ∧ gpu_gridsearch_cv cfit_raises cpredict cmse cfolds false [1, 2, 3] [1]
        = .ok (.finite 0, some 1, none)
    ∧ (Except.error "fit failed"
        : Except String (NpF × Option ℕ × Option (List ℚ)))
        ≠ .ok (.finite 0, some 1, none) :=
  ⟨rfl, by with_unfolding_all rfl, fun h => Except.noConfusion h⟩

/-- Claim C4 (amended): if fitting or scoring one hyperparameter
combination raises an error, the grid search aborts with that error — the
remaining combinations are not attempted (the source loop has no exception
handling; only a NaN average score is skipped). -/
theorem gridsearch_error_propagates {Param Model X Y : Type}
    (fit : Param → X → Y → Except String Model)
    (predict : Model → X → Y) (mse : Y → Y → NpF)
    (folds : List (CVFold X Y)) (return_predictions : Bool) (xdata : X)
    (p : Param) (rest : List Param) (e : String)
    (herr : run_param_folds fit predict mse p folds = .error e) :
    gpu_gridsearch_cv fit predict mse folds return_predictions xdata (p :: rest)
      = .error e := by
  unfold gpu_gridsearch_cv
  simp only [gpu_gridsearch_cv_from, herr]

/-- Concrete run of `gridsearch_error_propagates`: combination 0 raises and
the whole search over [0, 1] returns that error. -/
theorem gridsearch_error_propagates_witness :
    run_param_folds cfit_raises cpredict cmse 0 cfolds = .error "fit failed"
    ∧ gpu_gridsearch_cv cfit_raises cpredict cmse cfolds false [1, 2, 3] [0, 1]
        = .error "fit failed" :=
  ⟨rfl,
   gridsearch_error_propagates cfit_raises cpredict cmse cfolds false [1, 2, 3]
     0 [1] "fit failed" rfl⟩

/-- For an estimator whose fit always succeeds, the fold loop returns the
fold-by-fold MSE list and the model state left by fitting the LAST fold's
training slice. -/
theorem run_param_folds_from_total {Param Model X Y : Type}
    (g : Param → X → Y → Model) (predict : Model → X → Y) (mse : Y → Y → NpF)
    (p : Param) (lf : CVFold X Y) :
    ∀ (fs : List (CVFold X Y)) (acc : List NpF × Option Model),
      run_param_folds_from (fun q x y => (Except.ok (g q x y) : Except String Model))
          predict mse p (fs ++ [lf]) acc
        = .ok (acc.1 ++ (fs ++ [lf]).map
                 (fun f => mse (predict (g p f.xtrain f.ytrain) f.xtest) f.ytest),
               some (g p lf.xtrain lf.ytrain)) := by
  intro fs
  induction fs with
  | nil => intro acc; rfl
  | cons f fs ih =>
      intro acc
      simp only [List.cons_append, run_param_folds_from, List.map_cons, List.append_eq]
      rw [ih]
      simp [List.append_assoc]

/-- Claim C5 (counterexample): with prediction retention on, the
predictions returned by `gpu_gridsearch_cv` differ from those obtained by
refitting on the full data with the winning parameters — here the search
returns `[3]` (the model memorized from the last fold's training slice
`[1, 2]`) while a refit on the full data `[1, 2, 3]` predicts `[6]`. -/
theorem gridsearch_pred_not_refit_counterexample :
    gpu_gridsearch_cv cfit_raises cpredict cmse cfolds true [1, 2, 3] [7]
        = .ok (.finite 0, some 7, some [3])
    ∧ spec_refit_predictions cfit_raises cpredict [1, 2, 3] [0] 7 = .ok [6]
    ∧ (([3] : List ℚ) ≠ [6]) := by
  refine ⟨by with_unfolding_all rfl, by with_unfolding_all rfl, by with_unfolding_all decide⟩

/-- Claim C5 (amended): when prediction retention is enabled, the
predictions returned by the grid search for the winning combination are
produced by predicting on the full data with the estimator in the state
left by fitting that combination on the LAST cross-validation fold's
training slice — the estimator is not refit on the full data. -/
theorem gridsearch_pred_from_last_fold_fit {Param Model X Y : Type}
    (g : Param → X → Y → Model) (predict : Model → X → Y) (mse : Y → Y → NpF)
    (fs : List (CVFold X Y)) (lf : CVFold X Y) (xdata : X) (p : Param)
    (havg : NpF.lt (nanmean ((fs ++ [lf]).map
        (fun f => mse (predict (g p f.xtrain f.ytrain) f.xtest) f.ytest)))
        NpF.posInf = true) :
    gpu_gridsearch_cv (fun q x y => (Except.ok (g q x y) : Except String Model))
        predict mse (fs ++ [lf]) true xdata [p]
      = .ok (nanmean ((fs ++ [lf]).map
               (fun f => mse (predict (g p f.xtrain f.ytrain) f.xtest) f.ytest)),
             some p, some (predict (g p lf.xtrain lf.ytrain) xdata)) := by
  have hrun := run_param_folds_from_total g predict mse p lf fs ([], none)
  simp only [List.nil_append] at hrun
  unfold gpu_gridsearch_cv
  simp only [gpu_gridsearch_cv_from, run_param_folds, hrun, havg, if_true,
    Option.map_some']

/-- Concrete run of `gridsearch_pred_from_last_fold_fit`: the retained
predictions come from predicting the full data with the model memorized
from `cfold1`'s training slice. -/
theorem gridsearch_pred_from_last_fold_fit_witness :
    NpF.lt (nanmean ((([] : List (CVFold (List ℚ) (List ℚ))) ++ [cfold1]).map
        (fun f => cmse (cpredict (cgfit 7 f.xtrain f.ytrain) f.xtest) f.ytest)))
        NpF.posInf = true
    ∧ gpu_gridsearch_cv
          (fun q x y => (Except.ok (cgfit q x y) : Except String (List ℚ)))
          cpredict cmse (([] : List (CVFold (List ℚ) (List ℚ))) ++ [cfold1])
          true [1, 2, 3] [7]
        = .ok (nanmean ((([] : List (CVFold (List ℚ) (List ℚ))) ++ [cfold1]).map
                 (fun f => cmse (cpredict (cgfit 7 f.xtrain f.ytrain) f.xtest) f.ytest)),
               some 7, some (cpredict (cgfit 7 cfold1.xtrain cfold1.ytrain) [1, 2, 3])) :=
  ⟨by with_unfolding_all rfl,
   gridsearch_pred_from_last_fold_fit cgfit cpredict cmse [] cfold1 [1, 2, 3] 7
     (by with_unfolding_all rfl)⟩

/-- Claim C8 (confirmed): `Modelability._calculate_metric` reports
`value = fingerprint_error / embedding_error`; when both best MSEs are
positive finite numbers the ratio is strictly positive and exceeds 1
exactly when the embedding MSE is the smaller of the two. -/
theorem modelability_ratio_characterization {Param Model X Y : Type}
    (fit : Param → X → Y → Except String Model) (predict : Model → X → Y)
    (mse : Y → Y → NpF) (emb_folds fp_folds : List (CVFold X Y))
    (embeddings fingerprints : X) (params : List Param)
    (res : ModelabilityResults Param Y) (a b : ℚ)
    (hres : Modelability_calculate_metric fit predict mse emb_folds fp_folds
        embeddings fingerprints params = .ok res)
    (hfp : res.fingerprint_error = .finite a)
    (hemb : res.embedding_error = .finite b)
    (ha : 0 < a) (hb : 0 < b) :
    res.value = NpF.finite (a / b) ∧ 0 < a / b ∧ (1 < a / b ↔ b < a) := by
  have hval : res.value = NpF.div res.fingerprint_error res.embedding_error := by
    rcases he : gpu_gridsearch_cv fit predict mse emb_folds false embeddings params
      with e1 | r1
    · rw [Modelability_calculate_metric, he] at hres
      exact absurd hres (fun h => Except.noConfusion h)
    · rcases hf2 : gpu_gridsearch_cv fit predict mse fp_folds false fingerprints params
        with e2 | r2
      · rw [Modelability_calculate_metric, he, hf2] at hres
        exact absurd hres (fun h => Except.noConfusion h)
      · rw [Modelability_calculate_metric, he, hf2, Except.ok.injEq] at hres
        rw [← hres]
  rw [hfp, hemb] at hval
  refine ⟨?_, div_pos ha hb, one_lt_div hb⟩
  rw [hval]
  show npDivQ a b = _
  unfold npDivQ
  rw [if_neg hb.ne']

/-- Estimator stub for the ratio witness: fitting always succeeds. -/
def wfit : ℕ → ℚ → ℚ → Except String ℚ := fun _ _ _ => .ok 0

/-- Prediction stub for the ratio witness: echo the query. -/
def wpredict : ℚ → ℚ → ℚ := fun _ x => x

/-- Squared-error stub for the ratio witness. -/
def wmse : ℚ → ℚ → NpF := fun yp yt => .finite ((yp - yt) * (yp - yt))

/-- Embedding fold giving MSE 4 under `wpredict`/`wmse`. -/
def wemb_folds : List (CVFold ℚ ℚ) := [⟨0, 0, 3, 1⟩]

/-- Fingerprint fold giving MSE 1 under `wpredict`/`wmse`. -/
def wfp_folds : List (CVFold ℚ ℚ) := [⟨0, 0, 2, 1⟩]

/-- The results record produced on the ratio-witness data: fingerprint MSE
1, embedding MSE 4, ratio 1/4. -/
def wres : ModelabilityResults ℕ ℚ :=
  { value := .finite (1 / 4)
    fingerprint_error := .finite 1
    embedding_error := .finite 4
    fingerprint_param := some 0
    embedding_param := some 0
    fingerprint_pred := none
    embedding_pred := none }

/-- Concrete run of `modelability_ratio_characterization` with fingerprint
MSE 1 and embedding MSE 4: the reported value is 1/4, positive, and not
greater than 1 since the fingerprint MSE is the smaller one. -/
theorem modelability_ratio_characterization_witness :
    Modelability_calculate_metric wfit wpredict wmse wemb_folds wfp_folds 0 0 [0]
        = .ok wres
    ∧ wres.fingerprint_error = .finite 1
    ∧ wres.embedding_error = .finite 4
    ∧ (0 : ℚ) < 1 ∧ (0 : ℚ) < 4
    ∧ (wres.value = NpF.finite (1 / 4) ∧ 0 < (1 : ℚ) / 4
        ∧ (1 < (1 : ℚ) / 4 ↔ (4 : ℚ) < 1)) :=
  ⟨by with_unfolding_all rfl, rfl, rfl, by norm_num, by norm_num,
   modelability_ratio_characterization wfit wpredict wmse wemb_folds wfp_folds
     0 0 [0] wres 1 4 (by with_unfolding_all rfl) rfl rfl (by norm_num) (by norm_num)⟩
